import Mathlib

/-!
Shallow embedding of the HighTorque_Control motor library
(`src/rust/src/lib.rs`) and theorems checking the specification's claims
about it.

Modelling conventions:
* CAN frames are `Frame` records; payload bytes are `List Nat` with every
  byte in `[0, 255]` by construction.
* `f64` arithmetic in the unit-conversion functions is modelled by exact
  rationals (`ℚ`); `as i16` truncation toward zero is `truncQ`.
* Strings (`MotorInfo.name`, `MotorInfo.hardware_version`) are kept as their
  raw byte lists; the default `"Unknown"` is its ASCII byte list.
* The transport is a script: the send either succeeds or faults, and each
  `read_frame_with_timeout` call is one entry of an event list carrying the
  call's duration in ms and its outcome (timeout, frame, or I/O fault).
* Time is in whole milliseconds, matching the source's `as_millis` clocks.
-/

namespace HighTorque

/-- A CAN frame: numeric identifier, extended-addressing flag, payload bytes. -/
structure Frame where
  ident : Nat
  ext : Bool
  data : List Nat
  deriving Repr, DecidableEq

/-- ASCII bytes of the string `"Unknown"`, the default for the `name` and
`hardware_version` fields of `MotorInfo`. -/
def unknownBytes : List Nat := [85, 110, 107, 110, 111, 119, 110]

/-- Model of `lib.rs` `MotorInfo`, with the two string fields kept as byte lists. -/
structure MotorInfo where
  motor_id : Nat
  is_online : Bool
  name : List Nat
  hardware_version : List Nat
  response_time_ms : Nat
  deriving Repr, DecidableEq

/-- Model of `MotorInfo::default()` with a given `motor_id`, as built at the top of
`ping_motor`: offline, `"Unknown"` strings, zero response time. -/
def MotorInfo.mkDefault (motorId : Nat) : MotorInfo :=
  { motor_id := motorId
    is_online := false
    name := unknownBytes
    hardware_version := unknownBytes
    response_time_ms := 0 }

/-- Largest 29-bit extended CAN identifier; `socketcan`'s
`CanId::extended(id)` returns `None` exactly when `id` exceeds this mask. -/
def EFF_MASK : Nat := 0x1FFFFFFF

/-- Model of `lib.rs` `send_frame`: always builds an *extended* identifier via
`CanId::extended`; fails before any bus write when the identifier exceeds
29 bits, or when `CanFrame::new` rejects a payload longer than 8 bytes.
On success the returned `Frame` is the frame written to the bus. -/
def send_frame (id : Nat) (data : List Nat) : Except Unit Frame :=
  if EFF_MASK < id then .error ()
  else if 8 < data.length then .error ()
  else .ok { ident := id, ext := true, data := data }

/-- Model of `copy_from_slice`: overwrite the bytes of `arr` starting at offset `i`
with the bytes of `src` (writes past the end are dropped, which never
happens at the source's call sites). -/
def writeBytes : List Nat → Nat → List Nat → List Nat
  | arr, _, [] => arr
  | [], _, _ => []
  | _ :: arr, 0, b :: src => b :: writeBytes arr 0 src
  | a :: arr, i + 1, src => a :: writeBytes arr i src

/-- Two's-complement bit pattern of an `i16` value, as a `Nat` in
`[0, 65535]` (for `x` in the `i16` range `[-32768, 32767]`). -/
def i16Bits (x : Int) : Nat := (x % 65536).toNat

/-- Model of `i16::to_le_bytes`: low byte first. -/
def i16ToLe (x : Int) : List Nat := [i16Bits x % 256, i16Bits x / 256]

/-- Model of `f32::to_le_bytes` on a 32-bit IEEE-754 bit pattern: low byte first. -/
def u32ToLe (w : Nat) : List Nat :=
  [w % 256, w / 256 % 256, w / 65536 % 256, w / 16777216 % 256]

/-- IEEE-754 binary32 bit pattern of the Rust literal `1.0f32`. -/
def kpEnableBits : Nat := 0x3F800000

/-- IEEE-754 binary32 bit pattern of the Rust literal `0.1f32`
(the nearest representable single-precision value to 1/10). -/
def kdEnableBits : Nat := 0x3DCCCCCD

/-- IEEE-754 binary32 bit pattern of the Rust literal `3.0f32`. -/
def torqueLimitBits : Nat := 0x40400000

/-- IEEE-754 binary32 bit pattern of the Rust literal `2.0f32`. -/
def kpVelocityBits : Nat := 0x40000000

/-- IEEE-754 binary32 bit pattern of the Rust literal `0.2f32`
(the nearest representable single-precision value to 1/5). -/
def kdVelocityBits : Nat := 0x3E4CCCCD

/-- Rational value denoted by a normal binary32 bit pattern (used only to
document the `f32` constants above). -/
def f32Val (w : Nat) : ℚ :=
  let sign : ℚ := if w / 2 ^ 31 = 0 then 1 else -1
  let e : ℤ := (w / 2 ^ 23 % 256 : Nat) - 127
  sign * (1 + (w % 2 ^ 23 : Nat) / (2 ^ 23 : ℚ)) * (2 : ℚ) ^ e

/-- The mode-select payload `[0x01, 0x00, mode, 0x50 × 5]`, built inline in
`enable_motor`, `enable_velocity_mode` and `disable_motor`. -/
def mode_data (mode : Nat) : List Nat :=
  [0x01, 0x00, mode, 0x50, 0x50, 0x50, 0x50, 0x50]

/-- A register-write payload as built inline in the source: start from
`[0x0D, reg, 0, 0, 0, 0, 0x50, 0x50]` and copy the little-endian `f32`
bytes into positions 2..6. -/
def register_write_data (reg : Nat) (bits : Nat) : List Nat :=
  writeBytes [0x0D, reg, 0x00, 0x00, 0x00, 0x00, 0x50, 0x50] 2 (u32ToLe bits)

/-- One observable action of the controller: a frame write or a sleep. -/
inductive Action where
  | send (f : Frame)
  | sleep (ms : Nat)
  deriving Repr, DecidableEq

/-- Model of `lib.rs` `disable_motor`: a single mode frame with mode byte `0x00`. -/
def disable_motor (motorId : Nat) : Except Unit Frame :=
  send_frame motorId (mode_data 0x00)

/-- Model of `lib.rs` `enable_motor`: mode `0x0A`, 50 ms sleep, Kp = 1.0 to register
`0x23`, 20 ms sleep, Kd = 0.1 to register `0x24`. The result is the trace
of actions when every frame construction succeeds. -/
def enable_motor (motorId : Nat) : Except Unit (List Action) :=
  match send_frame motorId (mode_data 0x0A) with
  | .error e => .error e
  | .ok mf =>
    match send_frame motorId (register_write_data 0x23 kpEnableBits) with
    | .error e => .error e
    | .ok kf =>
      match send_frame motorId (register_write_data 0x24 kdEnableBits) with
      | .error e => .error e
      | .ok df => .ok [.send mf, .sleep 50, .send kf, .sleep 20, .send df]

/-- Model of `lib.rs` `enable_velocity_mode`: mode `0x0A`, 50 ms sleep, torque limit
3.0 to register `0x22`, 20 ms sleep, Kp = 2.0 to register `0x23`,
Kd = 0.2 to register `0x24`. -/
def enable_velocity_mode (motorId : Nat) : Except Unit (List Action) :=
  match send_frame motorId (mode_data 0x0A) with
  | .error e => .error e
  | .ok mf =>
    match send_frame motorId (register_write_data 0x22 torqueLimitBits) with
    | .error e => .error e
    | .ok tf =>
      match send_frame motorId (register_write_data 0x23 kpVelocityBits) with
      | .error e => .error e
      | .ok kf =>
        match send_frame motorId (register_write_data 0x24 kdVelocityBits) with
        | .error e => .error e
        | .ok df =>
          .ok [.send mf, .sleep 50, .send tf, .sleep 20, .send kf, .send df]

/-- Model of `lib.rs` `send_velocity_command`: 8-byte payload built by copying the
little-endian `i16` slices at offsets 0, 2, 4, then setting bytes 6 and 7
to `0x50`; sent with identifier `0x00AD`. -/
def send_velocity_command (position velocity acceleration : Int) :
    Except Unit Frame :=
  let d0 := List.replicate 8 0
  let d1 := writeBytes d0 0 (i16ToLe position)
  let d2 := writeBytes d1 2 (i16ToLe velocity)
  let d3 := writeBytes d2 4 (i16ToLe acceleration)
  send_frame 0x00AD ((d3.set 6 0x50).set 7 0x50)

/-- Model of `lib.rs` `send_angle_command`: same layout with the angle, max velocity
and max torque slices; sent with identifier `0x0090`. -/
def send_angle_command (angle maxVel maxTqe : Int) : Except Unit Frame :=
  let d0 := List.replicate 8 0
  let d1 := writeBytes d0 0 (i16ToLe angle)
  let d2 := writeBytes d1 2 (i16ToLe maxVel)
  let d3 := writeBytes d2 4 (i16ToLe maxTqe)
  send_frame 0x0090 ((d3.set 6 0x50).set 7 0x50)

/-- Scale factor: 1 revolution = 10000 position units. -/
def FACTOR_POS : ℚ := 10000

/-- Scale factor: 1 r/s = 4000 velocity units. -/
def FACTOR_VEL : ℚ := 4000

/-- Scale factor: 1 r/s² = 1000 acceleration units. -/
def FACTOR_ACC : ℚ := 1000

/-- Scale factor: 1 N·m = 200 torque units. -/
def FACTOR_TQE : ℚ := 200

/-- Rust `as i16` on an already-clamped float: truncation toward zero. -/
def truncQ (q : ℚ) : ℤ := if 0 ≤ q then ⌊q⌋ else ⌈q⌉

/-- Model of `lib.rs` `degrees_to_position`, with `f64` modelled by exact rationals:
`(angle_deg / 360.0) * FACTOR_POS`, then `.max(-32768.0).min(32767.0)`,
then `as i16`. -/
def degrees_to_position (angle_deg : ℚ) : ℤ :=
  truncQ (min (max (angle_deg / 360 * FACTOR_POS) (-32768)) 32767)

/-- Model of `lib.rs` `rps_to_velocity`. -/
def rps_to_velocity (velocity_rps : ℚ) : ℤ :=
  truncQ (min (max (velocity_rps * FACTOR_VEL) (-32768)) 32767)

/-- Model of `lib.rs` `rps2_to_acceleration`. -/
def rps2_to_acceleration (acceleration_rps2 : ℚ) : ℤ :=
  truncQ (min (max (acceleration_rps2 * FACTOR_ACC) (-32768)) 32767)

/-- Model of `lib.rs` `nm_to_torque`. -/
def nm_to_torque (torque_nm : ℚ) : ℤ :=
  truncQ (min (max (torque_nm * FACTOR_TQE) (-32768)) 32767)

/-- Extraction `(identifier >> 8) & 0x7F` — computed by the same expression for both
the `Id::Standard` and the `Id::Extended` arm of `ping_motor`. -/
def sourceId (ident : Nat) : Nat := (ident >>> 8) &&& 0x7F

/-- Extraction `identifier & 0xFF` — again identical in both arms. -/
def directId (ident : Nat) : Nat := ident &&& 0xFF

/-- The `detected_id` computation of `ping_motor`'s loop body:
`source_id` when `source_id > 0 && source_id < 128`, else `direct_id`
when it equals `motor_id`, else no candidate (`continue`). -/
def detectedId (motorId ident : Nat) : Option Nat :=
  if 0 < sourceId ident ∧ sourceId ident < 128 then some (sourceId ident)
  else if directId ident = motorId then some (directId ident)
  else none

/-- A received frame is treated as `motor_id`'s reply exactly when the
detected id exists and equals `motor_id`. -/
def frameMatches (motorId ident : Nat) : Bool :=
  match detectedId motorId ident with
  | some det => det == motorId
  | none => false

/-- Is `b` a UTF-8 continuation byte (`0x80..0xBF`)? -/
def isCont (b : Nat) : Bool := decide (0x80 ≤ b ∧ b ≤ 0xBF)

/-- Well-formed UTF-8 byte sequences, the success condition of
`std::str::from_utf8` (Unicode table of well-formed sequences). -/
def validUtf8 : List Nat → Bool
  | [] => true
  | b :: rest =>
    if b ≤ 0x7F then validUtf8 rest
    else if 0xC2 ≤ b ∧ b ≤ 0xDF then
      match rest with
      | c1 :: rest2 => isCont c1 && validUtf8 rest2
      | _ => false
    else if b = 0xE0 then
      match rest with
      | c1 :: c2 :: rest2 =>
        decide (0xA0 ≤ c1 ∧ c1 ≤ 0xBF) && isCont c2 && validUtf8 rest2
      | _ => false
    else if 0xE1 ≤ b ∧ b ≤ 0xEC then
      match rest with
      | c1 :: c2 :: rest2 => isCont c1 && isCont c2 && validUtf8 rest2
      | _ => false
    else if b = 0xED then
      match rest with
      | c1 :: c2 :: rest2 =>
        decide (0x80 ≤ c1 ∧ c1 ≤ 0x9F) && isCont c2 && validUtf8 rest2
      | _ => false
    else if 0xEE ≤ b ∧ b ≤ 0xEF then
      match rest with
      | c1 :: c2 :: rest2 => isCont c1 && isCont c2 && validUtf8 rest2
      | _ => false
    else if b = 0xF0 then
      match rest with
      | c1 :: c2 :: c3 :: rest2 =>
        decide (0x90 ≤ c1 ∧ c1 ≤ 0xBF) && isCont c2 && isCont c3 &&
          validUtf8 rest2
      | _ => false
    else if 0xF1 ≤ b ∧ b ≤ 0xF3 then
      match rest with
      | c1 :: c2 :: c3 :: rest2 =>
        isCont c1 && isCont c2 && isCont c3 && validUtf8 rest2
      | _ => false
    else if b = 0xF4 then
      match rest with
      | c1 :: c2 :: c3 :: rest2 =>
        decide (0x80 ≤ c1 ∧ c1 ≤ 0x8F) && isCont c2 && isCont c3 &&
          validUtf8 rest2
      | _ => false
    else false

/-- Model of `trim_end_matches` with pattern NUL on a byte list. -/
def trimNul (bs : List Nat) : List Nat :=
  (bs.reverse.dropWhile (fun b => b == 0)).reverse

/-- The response-parsing block of `ping_motor`: when the payload has at
least 4 bytes and byte 0 is `0x51`, bytes 1–3 become `name` provided they
are valid UTF-8 (else the field is left unchanged); independently, when the
payload has at least 8 bytes, bytes 4–7 become `hardware_version` under the
same UTF-8 proviso. Trailing NULs are trimmed from either field. -/
def parseResponse (info : MotorInfo) (data : List Nat) : MotorInfo :=
  let info1 :=
    if 4 ≤ data.length ∧ data.getD 0 0 = 0x51 then
      let nameBytes := (data.drop 1).take 3
      if validUtf8 nameBytes then { info with name := trimNul nameBytes }
      else info
    else info
  if 8 ≤ data.length then
    let versionBytes := (data.drop 4).take 4
    if validUtf8 versionBytes then
      { info1 with hardware_version := trimNul versionBytes }
    else info1
  else info1

/-- Outcome of one `read_frame_with_timeout` call: no frame within the
window, a frame, or a genuine I/O fault (which `?`-propagates). -/
inductive Recv where
  | timeout
  | got (f : Frame)
  | fault
  deriving Repr, DecidableEq

/-- A transport script for one `ping_motor` call: whether the ping send
succeeds, how many ms the send takes, and the sequence of receive events,
each with the duration in ms that the call takes to return. -/
structure PingScript where
  sendOk : Bool
  sendDur : Nat
  events : List (Nat × Recv)
  deriving Repr, DecidableEq

/-- The polling loop of `ping_motor`. `sinceStart` is the ms elapsed on
`start_time` (recorded before the send), used for `response_time_ms`;
`sincePoll` is the ms elapsed on `timeout_start` (recorded after the 10 ms
settle sleep), used for the 50 ms window guard, which is checked before
each read. The first matching frame wins and ends the loop. -/
def pingLoop (motorId : Nat) (info : MotorInfo) (sinceStart sincePoll : Nat) :
    List (Nat × Recv) → Except Unit MotorInfo
  | [] => .ok info
  | e :: rest =>
    if 50 ≤ sincePoll then .ok info
    else
      match e.2 with
      | .fault => .error ()
      | .timeout =>
        pingLoop motorId info (sinceStart + e.1) (sincePoll + e.1) rest
      | .got f =>
        match detectedId motorId f.ident with
        | none => pingLoop motorId info (sinceStart + e.1) (sincePoll + e.1) rest
        | some det =>
          if det = motorId then
            .ok (parseResponse
              { info with is_online := true, response_time_ms := sinceStart + e.1 }
              f.data)
          else pingLoop motorId info (sinceStart + e.1) (sincePoll + e.1) rest

/-- The ping payload `[0x11, 0x00, 0x50 × 6]`. -/
def ping_data : List Nat := [0x11, 0x00, 0x50, 0x50, 0x50, 0x50, 0x50, 0x50]

/-- Model of `lib.rs` `ping_motor` run against a transport script: send the ping
frame with identifier `0x8000 | motor_id` (a fault in the send
`?`-propagates), sleep 10 ms, then poll. When the script's events are
exhausted the remaining reads all time out, leaving the info unchanged. -/
def ping_motor (motorId : Nat) (s : PingScript) : Except Unit MotorInfo :=
  if s.sendOk then
    pingLoop motorId (MotorInfo.mkDefault motorId) (s.sendDur + 10) 0 s.events
  else .error ()

/-- The iteration of `scan_range` over a list of motor ids: each ping's
result is `?`-propagated, so one faulting ping aborts the whole scan. -/
def scanGo (scripts : Nat → PingScript) :
    List Nat → Except Unit (List MotorInfo)
  | [] => .ok []
  | id :: rest =>
    match ping_motor id (scripts id) with
    | .error e => .error e
    | .ok info =>
      match scanGo scripts rest with
      | .error e => .error e
      | .ok more => .ok (info :: more)

/-- Model of `lib.rs` `scan_range`: ping every id from `start_id` to `end_id`
inclusive (10 ms sleep between ids), collecting the results in id order;
any ping error is `?`-propagated. -/
def scan_range (startId endId : Nat) (scripts : Nat → PingScript) :
    Except Unit (List MotorInfo) :=
  scanGo scripts (List.range' startId (endId + 1 - startId))

/-- Specification predicate (spec §8, "Saturation") relating a scaled value
`s` to a conversion function's result `r`: overflow clamps to `32767`,
underflow to `-32768`, and in-range values truncate toward zero. -/
@[reducible] def saturationSpec (s : ℚ) (r : ℤ) : Prop :=
  (32767 < s → r = 32767) ∧
  (s < -32768 → r = -32768) ∧
  (-32768 ≤ s → s ≤ 32767 → r = truncQ s)

/-- A receive event that neither faults nor carries a frame whose identifier
matches `motorId`. -/
def eventBenign (motorId : Nat) : Nat × Recv → Bool
  | (_, .fault) => false
  | (_, .timeout) => true
  | (_, .got f) => ! frameMatches motorId f.ident

/-- Transport behaviour in which only id 3's ping send faults; every other
id sends fine and hears nothing. -/
def faultAt3 : Nat → PingScript :=
  fun id => if id = 3 then ⟨false, 0, []⟩ else ⟨true, 0, []⟩

/-- A benign transport behaviour: every send succeeds instantly and every
read times out. -/
def silentScripts : Nat → PingScript := fun _ => ⟨true, 0, []⟩

lemma send_frame_ok (id : Nat) (data : List Nat) (hid : id ≤ EFF_MASK)
    (hd : data.length ≤ 8) : send_frame id data = .ok ⟨id, true, data⟩ := by
  unfold send_frame
  rw [if_neg (by omega), if_neg (by omega)]

lemma truncQ_intCast (n : ℤ) : truncQ (n : ℚ) = n := by
  unfold truncQ
  split <;> simp

lemma enable_motor_eq (motorId : Nat) (h : motorId ≤ EFF_MASK) :
    enable_motor motorId = .ok
      [ .send ⟨motorId, true, mode_data 0x0A⟩, .sleep 50,
        .send ⟨motorId, true, register_write_data 0x23 kpEnableBits⟩,
        .sleep 20,
        .send ⟨motorId, true, register_write_data 0x24 kdEnableBits⟩ ] := by
  unfold enable_motor
  rw [send_frame_ok motorId (mode_data 0x0A) h (by simp [mode_data]),
    send_frame_ok motorId (register_write_data 0x23 kpEnableBits) h (by decide),
    send_frame_ok motorId (register_write_data 0x24 kdEnableBits) h (by decide)]

lemma enable_velocity_mode_eq (motorId : Nat) (h : motorId ≤ EFF_MASK) :
    enable_velocity_mode motorId = .ok
      [ .send ⟨motorId, true, mode_data 0x0A⟩, .sleep 50,
        .send ⟨motorId, true, register_write_data 0x22 torqueLimitBits⟩,
        .sleep 20,
        .send ⟨motorId, true, register_write_data 0x23 kpVelocityBits⟩,
        .send ⟨motorId, true, register_write_data 0x24 kdVelocityBits⟩ ] := by
  unfold enable_velocity_mode
  rw [send_frame_ok motorId (mode_data 0x0A) h (by simp [mode_data]),
    send_frame_ok motorId (register_write_data 0x22 torqueLimitBits) h
      (by decide),
    send_frame_ok motorId (register_write_data 0x23 kpVelocityBits) h
      (by decide),
    send_frame_ok motorId (register_write_data 0x24 kdVelocityBits) h
      (by decide)]

lemma satSpec_clampTrunc (s : ℚ) :
    saturationSpec s (truncQ (min (max s (-32768)) 32767)) := by
  refine ⟨fun h => ?_, fun h => ?_, fun h1 h2 => ?_⟩
  · rw [max_eq_left (by linarith), min_eq_right (by linarith)]
    have h32 : ((32767 : ℤ) : ℚ) = (32767 : ℚ) := by norm_num
    rw [← h32, truncQ_intCast]
  · rw [max_eq_right (by linarith), min_eq_left (by norm_num)]
    have h32 : ((-32768 : ℤ) : ℚ) = (-32768 : ℚ) := by norm_num
    rw [← h32, truncQ_intCast]
  · rw [max_eq_left h1, min_eq_left h2]

lemma pingLoop_nil (motorId : Nat) (info : MotorInfo) (ss sp : Nat) :
    pingLoop motorId info ss sp [] = .ok info := rfl

lemma pingLoop_cons (motorId : Nat) (info : MotorInfo) (ss sp d : Nat)
    (r : Recv) (rest : List (Nat × Recv)) :
    pingLoop motorId info ss sp ((d, r) :: rest) =
      if 50 ≤ sp then .ok info
      else
        match r with
        | .fault => .error ()
        | .timeout => pingLoop motorId info (ss + d) (sp + d) rest
        | .got f =>
          match detectedId motorId f.ident with
          | none => pingLoop motorId info (ss + d) (sp + d) rest
          | some det =>
            if det = motorId then
              .ok (parseResponse
                { info with is_online := true, response_time_ms := ss + d }
                f.data)
            else pingLoop motorId info (ss + d) (sp + d) rest := by
  rw [pingLoop]

lemma pingLoop_stop (motorId : Nat) (info : MotorInfo) (ss sp d : Nat)
    (r : Recv) (rest : List (Nat × Recv)) (h50 : 50 ≤ sp) :
    pingLoop motorId info ss sp ((d, r) :: rest) = .ok info := by
  rw [pingLoop_cons, if_pos h50]

lemma pingLoop_fault (motorId : Nat) (info : MotorInfo) (ss sp d : Nat)
    (rest : List (Nat × Recv)) (h50 : ¬ 50 ≤ sp) :
    pingLoop motorId info ss sp ((d, .fault) :: rest) = .error () := by
  rw [pingLoop_cons, if_neg h50]

lemma pingLoop_timeout (motorId : Nat) (info : MotorInfo) (ss sp d : Nat)
    (rest : List (Nat × Recv)) (h50 : ¬ 50 ≤ sp) :
    pingLoop motorId info ss sp ((d, .timeout) :: rest) =
      pingLoop motorId info (ss + d) (sp + d) rest := by
  rw [pingLoop_cons, if_neg h50]

lemma pingLoop_got_none (motorId : Nat) (info : MotorInfo) (ss sp d : Nat)
    (f : Frame) (rest : List (Nat × Recv)) (h50 : ¬ 50 ≤ sp)
    (hdet : detectedId motorId f.ident = none) :
    pingLoop motorId info ss sp ((d, .got f) :: rest) =
      pingLoop motorId info (ss + d) (sp + d) rest := by
  rw [pingLoop_cons, if_neg h50]
  dsimp only
  rw [hdet]

lemma pingLoop_got_some (motorId : Nat) (info : MotorInfo) (ss sp d : Nat)
    (f : Frame) (det : Nat) (rest : List (Nat × Recv)) (h50 : ¬ 50 ≤ sp)
    (hdet : detectedId motorId f.ident = some det) :
    pingLoop motorId info ss sp ((d, .got f) :: rest) =
      if det = motorId then
        .ok (parseResponse
          { info with is_online := true, response_time_ms := ss + d }
          f.data)
      else pingLoop motorId info (ss + d) (sp + d) rest := by
  rw [pingLoop_cons, if_neg h50]
  dsimp only
  rw [hdet]

lemma parseResponse_preserves (info : MotorInfo) (data : List Nat) :
    (parseResponse info data).motor_id = info.motor_id ∧
    (parseResponse info data).is_online = info.is_online ∧
    (parseResponse info data).response_time_ms = info.response_time_ms := by
  unfold parseResponse
  split_ifs <;>
    simp [apply_ite MotorInfo.motor_id, apply_ite MotorInfo.is_online,
      apply_ite MotorInfo.response_time_ms]

lemma parseResponse_name (info : MotorInfo) (data : List Nat) :
    (parseResponse info data).name =
      if 4 ≤ data.length ∧ data.getD 0 0 = 0x51 then
        if validUtf8 ((data.drop 1).take 3) = true then
          trimNul ((data.drop 1).take 3)
        else info.name
      else info.name := by
  unfold parseResponse
  split_ifs <;> simp_all [apply_ite MotorInfo.name]

lemma parseResponse_hw (info : MotorInfo) (data : List Nat) :
    (parseResponse info data).hardware_version =
      if 8 ≤ data.length then
        if validUtf8 ((data.drop 4).take 4) = true then
          trimNul ((data.drop 4).take 4)
        else info.hardware_version
      else info.hardware_version := by
  unfold parseResponse
  split_ifs <;> simp_all [apply_ite MotorInfo.hardware_version]

lemma pingLoop_motor_id (motorId : Nat) :
    ∀ (events : List (Nat × Recv)) (info : MotorInfo)
      (sinceStart sincePoll : Nat) (res : MotorInfo),
      pingLoop motorId info sinceStart sincePoll events = .ok res →
      res.motor_id = info.motor_id := by
  intro events
  induction events with
  | nil =>
    intro info ss sp res h
    cases h
    rfl
  | cons e rest ih =>
    intro info ss sp res h
    obtain ⟨d, r⟩ := e
    by_cases h50 : 50 ≤ sp
    · rw [pingLoop_stop motorId info ss sp d r rest h50] at h
      cases h
      rfl
    · cases r with
      | fault => rw [pingLoop_fault motorId info ss sp d rest h50] at h; cases h
      | timeout =>
        rw [pingLoop_timeout motorId info ss sp d rest h50] at h
        exact ih info _ _ res h
      | got f =>
        cases hdet : detectedId motorId f.ident with
        | none =>
          rw [pingLoop_got_none motorId info ss sp d f rest h50 hdet] at h
          exact ih info _ _ res h
        | some det =>
          rw [pingLoop_got_some motorId info ss sp d f det rest h50 hdet] at h
          by_cases hdm : det = motorId
          · rw [if_pos hdm] at h
            cases h
            exact (parseResponse_preserves _ _).1
          · rw [if_neg hdm] at h
            exact ih info _ _ res h

lemma ping_motor_motor_id (motorId : Nat) (s : PingScript) (res : MotorInfo)
    (h : ping_motor motorId s = .ok res) : res.motor_id = motorId := by
  unfold ping_motor at h
  by_cases hs : s.sendOk
  · rw [if_pos hs] at h
    exact pingLoop_motor_id motorId s.events _ _ _ res h
  · rw [if_neg hs] at h
    cases h

lemma pingLoop_benign (motorId : Nat) :
    ∀ (events : List (Nat × Recv)) (info : MotorInfo) (sinceStart sincePoll : Nat),
      events.all (eventBenign motorId) = true →
      pingLoop motorId info sinceStart sincePoll events = .ok info := by
  intro events
  induction events with
  | nil => intro info ss sp _; rfl
  | cons e rest ih =>
    intro info ss sp hall
    obtain ⟨d, r⟩ := e
    rw [List.all_cons, Bool.and_eq_true] at hall
    by_cases h50 : 50 ≤ sp
    · exact pingLoop_stop motorId info ss sp d r rest h50
    · cases r with
      | fault => exact absurd hall.1 (by simp [eventBenign])
      | timeout =>
        rw [pingLoop_timeout motorId info ss sp d rest h50]
        exact ih info _ _ hall.2
      | got f =>
        have hfm : frameMatches motorId f.ident = false := by
          have hb := hall.1
          simpa [eventBenign] using hb
        cases hdet : detectedId motorId f.ident with
        | none =>
          rw [pingLoop_got_none motorId info ss sp d f rest h50 hdet]
          exact ih info _ _ hall.2
        | some det =>
          have hne : det ≠ motorId := by
            unfold frameMatches at hfm
            rw [hdet] at hfm
            simpa using hfm
          rw [pingLoop_got_some motorId info ss sp d f det rest h50 hdet,
            if_neg hne]
          exact ih info _ _ hall.2

lemma scanGo_ok_of_all (scripts : Nat → PingScript) :
    ∀ ids : List Nat,
      (∀ id ∈ ids, (ping_motor id (scripts id)).isOk = true) →
      ∃ l, scanGo scripts ids = .ok l ∧ l.map MotorInfo.motor_id = ids := by
  intro ids
  induction ids with
  | nil => exact fun _ => ⟨[], rfl, rfl⟩
  | cons id rest ih =>
    intro hall
    have h1 := hall id (List.mem_cons_self id rest)
    obtain ⟨info, hinfo⟩ : ∃ info, ping_motor id (scripts id) = .ok info := by
      cases hping : ping_motor id (scripts id) with
      | ok info => exact ⟨info, rfl⟩
      | error e => rw [hping] at h1; cases h1
    obtain ⟨l, hl, hmap⟩ := ih (fun i hi => hall i (List.mem_cons_of_mem _ hi))
    refine ⟨info :: l, ?_, ?_⟩
    · rw [scanGo, hinfo, hl]
    · rw [List.map_cons, hmap, ping_motor_motor_id id (scripts id) info hinfo]

/-- Claim C1 (counterexample): with a transport behaviour in which only
id 3's ping send faults, `scan_range 1 5` aborts with the propagated error
— it does not return 5 entries with id 3 marked offline, because
`scan_range` applies `?` to each `ping_motor` result. -/
theorem scan_range_abort_cex : scan_range 1 5 faultAt3 = .error () := rfl

/-- Claim C1 (amended): a transport fault during one ping aborts the whole
scan with an error; when every ping in `[startId, endId]` completes without
a transport fault and `startId ≤ endId`, `scan_range` returns exactly
`endId - startId + 1` entries whose motor ids are in increasing id order. -/
theorem scan_range_fault_free (startId endId : Nat)
    (scripts : Nat → PingScript) (hle : startId ≤ endId)
    (hok : ∀ id, startId ≤ id → id ≤ endId →
      (ping_motor id (scripts id)).isOk = true) :
    ∃ l, scan_range startId endId scripts = .ok l ∧
      l.length = endId - startId + 1 ∧
      l.map MotorInfo.motor_id = List.range' startId (endId - startId + 1) := by
  have hn : endId + 1 - startId = endId - startId + 1 := by omega
  have hall : ∀ id ∈ List.range' startId (endId + 1 - startId),
      (ping_motor id (scripts id)).isOk = true := by
    intro id hid
    rw [List.mem_range'_1] at hid
    exact hok id hid.1 (by omega)
  obtain ⟨l, hl, hmap⟩ := scanGo_ok_of_all scripts _ hall
  refine ⟨l, hl, ?_, ?_⟩
  · have hlen := congrArg List.length hmap
    rw [List.length_map, List.length_range'] at hlen
    omega
  · rw [hmap, hn]

/-- Witness for the amended C1 theorem at `startId = 1`, `endId = 2` with a
benign transport. -/
theorem scan_range_fault_free_witness :
    ∃ l, scan_range 1 2 silentScripts = .ok l ∧ l.length = 2 ∧
      l.map MotorInfo.motor_id = List.range' 1 2 :=
  scan_range_fault_free 1 2 silentScripts (by decide) (fun id _ _ => rfl)

/-- Claim C2 (counterexample): identifier `0x0705` for `motor_id = 5` has
`source_id = 7` (in `[1,127]`, unequal to 5) and `direct_id = 5`; the claim
says the fallback accepts it, but the code takes the `source_id` branch,
compares 7 with 5 and ignores the frame — `ping_motor` stays offline. -/
theorem ping_fallback_cex :
    frameMatches 5 0x0705 = false ∧ sourceId 0x0705 = 7 ∧
    directId 0x0705 = 5 ∧
    ping_motor 5 ⟨true, 0, [(1, .got ⟨0x0705, true, []⟩)]⟩ =
      .ok (MotorInfo.mkDefault 5) :=
  ⟨by decide, by decide, by decide, rfl⟩

/-- Claim C2 (amended): a received frame is accepted for `motor_id` iff
`source_id ∈ [1,127]` and `source_id = motor_id`, OR `source_id = 0` and
`direct_id = motor_id` — the `direct_id` fallback fires only when
`source_id` is 0; any other frame is ignored and polling continues. -/
theorem ping_frame_acceptance (motorId ident : Nat) :
    (frameMatches motorId ident = true ↔
      (1 ≤ sourceId ident ∧ sourceId ident ≤ 127 ∧
        sourceId ident = motorId) ∨
      (sourceId ident = 0 ∧ directId ident = motorId)) ∧
    (frameMatches motorId ident = false →
      ∀ (info : MotorInfo) (ss sp d : Nat) (b : Bool) (dat : List Nat)
        (rest : List (Nat × Recv)), sp < 50 →
        pingLoop motorId info ss sp ((d, .got ⟨ident, b, dat⟩) :: rest) =
          pingLoop motorId info (ss + d) (sp + d) rest) := by
  have hle : sourceId ident ≤ 127 := Nat.and_le_right
  constructor
  · unfold frameMatches detectedId
    by_cases h0 : 0 < sourceId ident ∧ sourceId ident < 128
    · rw [if_pos h0]
      dsimp only
      simp only [beq_iff_eq]
      omega
    · rw [if_neg h0]
      by_cases hd : directId ident = motorId
      · rw [if_pos hd]
        dsimp only
        simp only [beq_iff_eq]
        omega
      · rw [if_neg hd]
        dsimp only
        simp only [Bool.false_eq_true, false_iff]
        omega
  · intro hfm info ss sp d b dat rest hsp
    have h50 : ¬ 50 ≤ sp := by omega
    cases hdet : detectedId motorId ident with
    | none =>
      exact pingLoop_got_none motorId info ss sp d ⟨ident, b, dat⟩ rest h50
        hdet
    | some det =>
      have hne : det ≠ motorId := by
        unfold frameMatches at hfm
        rw [hdet] at hfm
        simpa using hfm
      rw [pingLoop_got_some motorId info ss sp d ⟨ident, b, dat⟩ det rest h50
        hdet, if_neg hne]

/-- Witness for the amended C2 theorem: identifier `0x0505` is accepted for
motor 5 via `source_id`; a frame with identifier `0x0200` is ignored and
the loop continues with the remaining events. -/
theorem ping_frame_acceptance_witness :
    frameMatches 5 0x0505 = true ∧
    pingLoop 5 (MotorInfo.mkDefault 5) 10 0 [(3, .got ⟨0x0200, true, []⟩)] =
      .ok (MotorInfo.mkDefault 5) := by
  constructor
  · exact (ping_frame_acceptance 5 0x0505).1.mpr (Or.inl (by decide))
  · have h := (ping_frame_acceptance 5 0x0200).2 (by decide)
      (MotorInfo.mkDefault 5) 10 0 3 true [] [] (by decide)
    rw [h]
    rfl

/-- Claim C3 (counterexample): the mode-select frame of `disable_motor 5`
carries `ext = true` — `send_frame` always builds an extended identifier
via `CanId::extended` — contradicting "as a standard/base (11-bit) frame
identifier, not an extended identifier". -/
theorem mode_frame_extended_cex :
    disable_motor 5 =
      .ok { ident := 5, ext := true,
            data := [0x01, 0x00, 0x00, 0x50, 0x50, 0x50, 0x50, 0x50] } := rfl

/-- Claim C3 (amended): mode-select frames are sent with CAN identifier
equal to the motor id as an *extended* (29-bit) identifier, with payload
`[0x01, 0x00, mode, 0x50 × 5]`; `enable_motor` and `enable_velocity_mode`
start with mode `0x0A` (position-stream mode) and `disable_motor` sends
mode `0x00` (disable). -/
theorem mode_select_frames (motorId mode : Nat) (h : motorId ≤ 255) :
    send_frame motorId (mode_data mode) =
      .ok ⟨motorId, true, [0x01, 0x00, mode, 0x50, 0x50, 0x50, 0x50, 0x50]⟩ ∧
    disable_motor motorId =
      .ok ⟨motorId, true, [0x01, 0x00, 0x00, 0x50, 0x50, 0x50, 0x50, 0x50]⟩ ∧
    (∀ acts, enable_motor motorId = .ok acts →
      acts.head? = some (.send ⟨motorId, true, mode_data 0x0A⟩)) ∧
    (∀ acts, enable_velocity_mode motorId = .ok acts →
      acts.head? = some (.send ⟨motorId, true, mode_data 0x0A⟩)) := by
  have h29 : motorId ≤ EFF_MASK := le_trans h (by norm_num [EFF_MASK])
  refine ⟨send_frame_ok motorId (mode_data mode) h29 (by simp [mode_data]),
    send_frame_ok motorId (mode_data 0x00) h29 (by simp [mode_data]),
    ?_, ?_⟩
  · intro acts hacts
    rw [enable_motor_eq motorId h29] at hacts
    cases hacts
    rfl
  · intro acts hacts
    rw [enable_velocity_mode_eq motorId h29] at hacts
    cases hacts
    rfl

/-- Witness for the amended C3 theorem at motor id 7. -/
theorem mode_select_frames_witness :
    disable_motor 7 =
      .ok ⟨7, true, [0x01, 0x00, 0x00, 0x50, 0x50, 0x50, 0x50, 0x50]⟩ :=
  (mode_select_frames 7 0x0A (by decide)).2.1

/-- Claim C4: each conversion function multiplies its input by its fixed
scale factor (position 10000 per revolution, velocity 4000, acceleration
1000, torque 200); a scaled value above `32767` clamps to exactly `32767`,
below `-32768` to exactly `-32768`, and an in-range scaled value truncates
toward zero (`f64` modelled by exact rationals). -/
theorem conversion_saturation (x : ℚ) :
    saturationSpec (x / 360 * FACTOR_POS) (degrees_to_position x) ∧
    saturationSpec (x * FACTOR_VEL) (rps_to_velocity x) ∧
    saturationSpec (x * FACTOR_ACC) (rps2_to_acceleration x) ∧
    saturationSpec (x * FACTOR_TQE) (nm_to_torque x) :=
  ⟨satSpec_clampTrunc _, satSpec_clampTrunc _, satSpec_clampTrunc _,
    satSpec_clampTrunc _⟩

/-- Witness for C4: a torque input whose scaled value is exactly `32767.5`
yields `32767` (no rounding to nearest), and an in-range position input
truncates exactly. -/
theorem conversion_saturation_witness :
    nm_to_torque (65535 / 400) = 32767 ∧ degrees_to_position 36 = 1000 := by
  constructor
  · exact (conversion_saturation (65535 / 400)).2.2.2.1
      (by norm_num [FACTOR_TQE])
  · have h := (conversion_saturation 36).1.2.2 (by norm_num [FACTOR_POS])
      (by norm_num [FACTOR_POS])
    rw [h]
    norm_num [truncQ, FACTOR_POS]

/-- Claim C5: the angle-stream command is sent with identifier `0x0090`
and payload `[position LE, max_velocity LE, max_torque LE, 0x50, 0x50]`,
the velocity command with identifier `0x00AD` and payload
`[position LE, velocity LE, acceleration LE, 0x50, 0x50]`, each exactly
8 bytes, for all `i16` arguments. -/
theorem command_frame_layout (p v a : Int) :
    send_angle_command p v a =
      .ok ⟨0x0090, true, i16ToLe p ++ i16ToLe v ++ i16ToLe a ++ [0x50, 0x50]⟩ ∧
    send_velocity_command p v a =
      .ok ⟨0x00AD, true, i16ToLe p ++ i16ToLe v ++ i16ToLe a ++ [0x50, 0x50]⟩ ∧
    (i16ToLe p ++ i16ToLe v ++ i16ToLe a ++ [0x50, 0x50]).length = 8 :=
  ⟨rfl, rfl, rfl⟩

/-- Claim C6: when the ping send succeeds and no received frame matches
`motor_id` (and no read faults), `ping_motor` returns successfully with
`is_online = false`, default `"Unknown"` strings and
`response_time_ms = 0`: absence is a value, not an error. -/
theorem ping_no_match_is_offline (motorId : Nat) (s : PingScript)
    (hsend : s.sendOk = true)
    (hev : s.events.all (eventBenign motorId) = true) :
    ping_motor motorId s = .ok (MotorInfo.mkDefault motorId) := by
  unfold ping_motor
  rw [if_pos hsend]
  exact pingLoop_benign motorId s.events _ _ _ hev

/-- Witness for C6: two reads (a timeout and a non-matching frame) leave
motor 5 offline with all defaults. -/
theorem ping_no_match_is_offline_witness :
    ping_motor 5
        ⟨true, 0, [(10, Recv.timeout), (10, .got ⟨0x0200, true, []⟩)]⟩ =
      .ok (MotorInfo.mkDefault 5) :=
  ping_no_match_is_offline 5 _ rfl (by decide)

/-- Claim C7 (counterexample): the 50 ms window is measured from
`timeout_start`, taken *after* the send and the 10 ms settle sleep — not
"since the ping was sent". With the send at t = 0 and five 10 ms reads,
the matching frame is accepted at 60 ms after the ping was sent
(`response_time_ms = 60 > 50`), which the claim's stopping rule forbids. -/
theorem ping_window_origin_cex :
    ping_motor 5 ⟨true, 0,
        [(10, Recv.timeout), (10, Recv.timeout), (10, Recv.timeout),
         (10, Recv.timeout), (10, .got ⟨0x0505, true, []⟩)]⟩ =
      .ok { motor_id := 5, is_online := true, name := unknownBytes,
            hardware_version := unknownBytes, response_time_ms := 60 } := rfl

/-- Claim C7 (amended): after the send and a fixed 10 ms settle delay,
`receive(10ms)` is polled repeatedly; polling stops at the first matching
frame (first match wins, `is_online := true`, `response_time_ms` = elapsed
time on the clock started *before* the send) or once 50 ms have elapsed
since polling began — i.e. 50 ms measured from after the settle delay, not
since the ping was sent. -/
theorem ping_poll_window (motorId : Nat) (info : MotorInfo)
    (ss sp d : Nat) (f : Frame) (e : Nat × Recv) (rest : List (Nat × Recv))
    (s : PingScript) (hs : s.sendOk = true) :
    (50 ≤ sp → pingLoop motorId info ss sp (e :: rest) = .ok info) ∧
    (sp < 50 → frameMatches motorId f.ident = true →
      pingLoop motorId info ss sp ((d, .got f) :: rest) =
        .ok (parseResponse
          { info with is_online := true, response_time_ms := ss + d }
          f.data)) ∧
    (parseResponse { info with is_online := true, response_time_ms := ss + d }
        f.data).is_online = true ∧
    (parseResponse { info with is_online := true, response_time_ms := ss + d }
        f.data).response_time_ms = ss + d ∧
    ping_motor motorId s =
      pingLoop motorId (MotorInfo.mkDefault motorId) (s.sendDur + 10) 0
        s.events := by
  refine ⟨?_, ?_, ?_, ?_, ?_⟩
  · intro h50
    obtain ⟨d0, r0⟩ := e
    exact pingLoop_stop motorId info ss sp d0 r0 rest h50
  · intro hsp hfm
    have h50 : ¬ 50 ≤ sp := by omega
    cases hdet : detectedId motorId f.ident with
    | none =>
      unfold frameMatches at hfm
      rw [hdet] at hfm
      cases hfm
    | some det =>
      have hdm : det = motorId := by
        unfold frameMatches at hfm
        rw [hdet] at hfm
        simpa using hfm
      rw [pingLoop_got_some motorId info ss sp d f det rest h50 hdet,
        if_pos hdm]
  · exact ((parseResponse_preserves _ _).2.1).trans rfl
  · exact ((parseResponse_preserves _ _).2.2).trans rfl
  · unfold ping_motor
    rw [if_pos hs]

/-- Witness for the amended C7 theorem: with 55 ms already on the polling
clock the loop stops without reading; with 0 ms it accepts a matching
frame, stamping the start-clock time 10 + 3. -/
theorem ping_poll_window_witness :
    pingLoop 5 (MotorInfo.mkDefault 5) 10 55 [(1, Recv.timeout)] =
      .ok (MotorInfo.mkDefault 5) ∧
    pingLoop 5 (MotorInfo.mkDefault 5) 10 0 [(3, .got ⟨0x0505, true, []⟩)] =
      .ok (parseResponse
        { MotorInfo.mkDefault 5 with
            is_online := true, response_time_ms := 13 } []) := by
  constructor
  · exact (ping_poll_window 5 (MotorInfo.mkDefault 5) 10 55 1
      ⟨0x0505, true, []⟩ (1, Recv.timeout) [] ⟨true, 0, []⟩ rfl).1 (by decide)
  · exact (ping_poll_window 5 (MotorInfo.mkDefault 5) 10 0 3
      ⟨0x0505, true, []⟩ (1, Recv.timeout) [] ⟨true, 0, []⟩ rfl).2.1
      (by decide) (by decide)

/-- Claim C8: `enable_motor` sends exactly three frames in fixed order —
mode `0x0A`, then after a 50 ms delay Kp = 1.0 (IEEE-754 bytes
`00 00 80 3F`) to register `0x23`, then after a 20 ms delay Kd = 0.1
(bytes `CD CC CC 3D`) to register `0x24` — each register-write payload
being `[0x0D, register, f32 LE, 0x50, 0x50]`. -/
theorem enable_motor_sequence (motorId : Nat) (h : motorId ≤ 255) :
    enable_motor motorId = .ok
      [ .send ⟨motorId, true,
          [0x01, 0x00, 0x0A, 0x50, 0x50, 0x50, 0x50, 0x50]⟩,
        .sleep 50,
        .send ⟨motorId, true,
          [0x0D, 0x23, 0x00, 0x00, 0x80, 0x3F, 0x50, 0x50]⟩,
        .sleep 20,
        .send ⟨motorId, true,
          [0x0D, 0x24, 0xCD, 0xCC, 0xCC, 0x3D, 0x50, 0x50]⟩ ] ∧
    register_write_data 0x23 kpEnableBits =
      [0x0D, 0x23] ++ u32ToLe kpEnableBits ++ [0x50, 0x50] ∧
    register_write_data 0x24 kdEnableBits =
      [0x0D, 0x24] ++ u32ToLe kdEnableBits ++ [0x50, 0x50] := by
  refine ⟨?_, rfl, rfl⟩
  rw [enable_motor_eq motorId (le_trans h (by norm_num [EFF_MASK]))]
  rfl

/-- Witness for C8 at motor id 9. -/
theorem enable_motor_sequence_witness :
    enable_motor 9 = .ok
      [ .send ⟨9, true, [0x01, 0x00, 0x0A, 0x50, 0x50, 0x50, 0x50, 0x50]⟩,
        .sleep 50,
        .send ⟨9, true, [0x0D, 0x23, 0x00, 0x00, 0x80, 0x3F, 0x50, 0x50]⟩,
        .sleep 20,
        .send ⟨9, true, [0x0D, 0x24, 0xCD, 0xCC, 0xCC, 0x3D, 0x50, 0x50]⟩ ] :=
  (enable_motor_sequence 9 (by decide)).1

/-- Claim C9: invalid UTF-8 in a matching reply's name bytes (payload ≥ 4,
byte 0 = `0x51`, bytes 1–3) or version bytes (payload ≥ 8, bytes 4–7)
never fails the parse — the field silently keeps its previous (default)
value while `is_online`, `response_time_ms` and `motor_id` are untouched;
and the hardware version is parsed whenever the payload has ≥ 8 bytes,
even when byte 0 is not `0x51`. -/
theorem ping_parse_robustness (info : MotorInfo) (data : List Nat) :
    (4 ≤ data.length → data.getD 0 0 = 0x51 →
      validUtf8 ((data.drop 1).take 3) = false →
      (parseResponse info data).name = info.name) ∧
    (8 ≤ data.length → validUtf8 ((data.drop 4).take 4) = false →
      (parseResponse info data).hardware_version = info.hardware_version) ∧
    (8 ≤ data.length → validUtf8 ((data.drop 4).take 4) = true →
      (parseResponse info data).hardware_version =
        trimNul ((data.drop 4).take 4)) ∧
    (parseResponse info data).is_online = info.is_online ∧
    (parseResponse info data).response_time_ms = info.response_time_ms := by
  refine ⟨?_, ?_, ?_, (parseResponse_preserves info data).2.1,
    (parseResponse_preserves info data).2.2⟩
  · intro h4 h51 hbad
    rw [parseResponse_name, if_pos ⟨h4, h51⟩, if_neg (by rw [hbad]; simp)]
  · intro h8 hbad
    rw [parseResponse_hw, if_pos h8, if_neg (by rw [hbad]; simp)]
  · intro h8 hgood
    rw [parseResponse_hw, if_pos h8, if_pos hgood]

/-- Witness for C9: payload `[0x51, 0xFF, 'A', 'B', 'v', '1', '.', '0']`
has invalid UTF-8 name bytes and a valid version: the name keeps its
default while the version is parsed. -/
theorem ping_parse_robustness_witness :
    (parseResponse (MotorInfo.mkDefault 7)
        [0x51, 0xFF, 0x41, 0x42, 0x76, 0x31, 0x2E, 0x30]).name =
      unknownBytes ∧
    (parseResponse (MotorInfo.mkDefault 7)
        [0x51, 0xFF, 0x41, 0x42, 0x76, 0x31, 0x2E, 0x30]).hardware_version =
      [0x76, 0x31, 0x2E, 0x30] := by
  constructor
  · exact ((ping_parse_robustness (MotorInfo.mkDefault 7) _).1
      (by decide) (by decide) (by decide)).trans rfl
  · exact ((ping_parse_robustness (MotorInfo.mkDefault 7) _).2.2.1
      (by decide) (by decide)).trans (by decide)

/-- Claim C10: `send_frame` always constructs an extended identifier and,
for any 8-byte payload, errors before writing exactly when the identifier
exceeds the 29-bit maximum `0x1FFFFFFF`; for every identifier the library
itself passes (motor ids ≤ 255, `0x0090`, `0x00AD`, `0x8000 | motor_id`),
the error branch is unreachable. -/
theorem send_frame_id_range (id : Nat) (data : List Nat)
    (h : data.length = 8) :
    (send_frame id data = .error () ↔ EFF_MASK < id) ∧
    (∀ f, send_frame id data = .ok f →
      f.ext = true ∧ f.ident = id ∧ f.data = data) ∧
    (∀ motorId : Nat, motorId ≤ 255 →
      send_frame motorId data = .ok ⟨motorId, true, data⟩ ∧
      send_frame (0x8000 ||| motorId) data =
        .ok ⟨0x8000 ||| motorId, true, data⟩) ∧
    send_frame 0x0090 data = .ok ⟨0x0090, true, data⟩ ∧
    send_frame 0x00AD data = .ok ⟨0x00AD, true, data⟩ := by
  have hd : data.length ≤ 8 := by omega
  refine ⟨?_, ?_, ?_,
    send_frame_ok _ _ (by norm_num [EFF_MASK]) hd,
    send_frame_ok _ _ (by norm_num [EFF_MASK]) hd⟩
  · constructor
    · intro he
      by_contra hlt
      rw [send_frame_ok id data (by omega) hd] at he
      cases he
    · intro hlt
      unfold send_frame
      rw [if_pos hlt]
  · intro f hf
    by_cases hlt : EFF_MASK < id
    · unfold send_frame at hf
      rw [if_pos hlt] at hf
      cases hf
    · rw [send_frame_ok id data (by omega) hd] at hf
      cases hf
      exact ⟨rfl, rfl, rfl⟩
  · intro motorId hm
    have h1 : motorId ≤ EFF_MASK := le_trans hm (by norm_num [EFF_MASK])
    have h2 : 0x8000 ||| motorId ≤ EFF_MASK := by
      have hor : 0x8000 ||| motorId < 2 ^ 16 :=
        Nat.or_lt_two_pow (by norm_num) (by omega)
      norm_num [EFF_MASK]
      omega
    exact ⟨send_frame_ok _ _ h1 hd, send_frame_ok _ _ h2 hd⟩

/-- Witness for C10 at the command identifier `0x0090` and the ping
identifier `0x8000 ||| 5 = 0x8005`, with an 8-byte payload. -/
theorem send_frame_id_range_witness :
    send_frame 0x0090 (List.replicate 8 0x50) =
      .ok ⟨0x0090, true, List.replicate 8 0x50⟩ ∧
    send_frame 0x8005 (List.replicate 8 0x50) =
      .ok ⟨0x8005, true, List.replicate 8 0x50⟩ := by
  have h := send_frame_id_range 0x0090 (List.replicate 8 0x50) (by decide)
  exact ⟨h.2.2.2.1, (h.2.2.1 5 (by decide)).2⟩

end HighTorque
